import Mathlib

/-!
Verification of the venue-traffic intelligence backend
(`main.py`, `generate_token.py`, `output.py`) against its specification.

Python floats are idealised as rationals (`ℚ`) except where the source
computes with transcendental functions (the haversine distance), which are
embedded over `ℝ`.  Python `round(x, n)` (round-half-to-even) is embedded
explicitly.  External HTTP calls and the LLM oracle are modelled as inputs
to the embedded functions: each embedded function receives the outcome of
the external call (response, exception, missing credential) as a parameter
and is otherwise a faithful translation of the source.
-/

/-! # Definitions -/

/-- Python `round` to an integer: round half to even (banker's rounding),
idealised over `ℚ`. -/
def roundHalfEvenQ (q : ℚ) : ℤ :=
  if q - ⌊q⌋ < 1/2 then ⌊q⌋
  else if 1/2 < q - ⌊q⌋ then ⌊q⌋ + 1
  else if ⌊q⌋ % 2 = 0 then ⌊q⌋ else ⌊q⌋ + 1

/-- Python `round(x, d)` over `ℚ`. -/
def qroundTo (d : ℕ) (q : ℚ) : ℚ :=
  ((roundHalfEvenQ (q * 10 ^ d) : ℚ)) / 10 ^ d

/-! ## Routing / live-traffic adapter (`generate_token.py`) -/

/-- One element of the `routes` array of the Mappls response body.
`distance` is metres, `duration` and `duration_without_traffic` seconds;
absent keys are `none` (the source uses `route.get(key, default)`). -/
structure Route where
  distance : Option ℚ
  duration : Option ℚ
  duration_without_traffic : Option ℚ

/-- The successful result dictionary of `fetch_mappls_traffic`. -/
structure MapplsRecord where
  distance_km : ℚ
  travel_time_min : ℚ
  traffic_delay_min : ℚ
  average_speed_kmh : ℚ
  congestion_level : String
  deriving DecidableEq

/-- Congestion classification of `fetch_mappls_traffic`
(`generate_token.py` lines 111-118). -/
def congestionLevel (delay_min : ℚ) : String :=
  if delay_min > 10 then "CRITICAL"
  else if delay_min > 5 then "HIGH"
  else if delay_min > 2 then "MODERATE"
  else "LOW"

/-- The route-processing core of `fetch_mappls_traffic`
(`generate_token.py` lines 101-134): unit conversions, delay clamped at 0,
guarded average-speed division (`if duration_min else 0`), rounding of the
reported fields, congestion classification. -/
def routeSummary (route : Route) : MapplsRecord :=
  let distance_km := route.distance.getD 0 / 1000
  let duration_min := route.duration.getD 0 / 60
  let duration_no_traffic := route.duration_without_traffic.getD (route.duration.getD 0) / 60
  let delay_min := max 0 (duration_min - duration_no_traffic)
  let avg_speed := if duration_min = 0 then 0 else distance_km / (duration_min / 60)
  { distance_km := qroundTo 2 distance_km
    travel_time_min := qroundTo 1 duration_min
    traffic_delay_min := qroundTo 1 delay_min
    average_speed_kmh := qroundTo 1 avg_speed
    congestion_level := congestionLevel delay_min }

/-- The unrounded delay in minutes, clamped at 0, exactly as computed by
`generate_token.py` lines 105-106. -/
def pyDelay (route : Route) : ℚ :=
  max 0 (route.duration.getD 0 / 60
    - route.duration_without_traffic.getD (route.duration.getD 0) / 60)

/-- In-band value produced by `fetch_mappls_traffic` when it does not
return `None`: either the exception path's dictionary
`{"error": ..., "congestion_level": "UNKNOWN"}` or a result dictionary. -/
inductive MapplsValue where
  | errorDict (error : String)
  | result (r : MapplsRecord)

/-- Outcome of the traffic HTTP call: a raised exception (network error,
malformed JSON body) or a response with a status code and a parsed
`routes` array. -/
inductive MapplsFetch where
  | exn (msg : String)
  | resp (status : ℕ) (routes : List Route)

/-- `fetch_mappls_traffic` (`generate_token.py` lines 61-141), as a
function of the token-acquisition outcome and the HTTP call outcome.
A missing token, a non-200 status, and an empty `routes` array each hit a
bare `return`, i.e. produce Python `None` (`none` here); only a raised
exception is converted to the in-band error dictionary. -/
def fetch_mappls_traffic (token : Option String) (fetch : MapplsFetch) :
    Option MapplsValue :=
  match token with
  | none => none
  | some _ =>
    match fetch with
    | .exn msg => some (.errorDict msg)
    | .resp status routes =>
      if status ≠ 200 then none
      else
        match routes with
        | [] => none
        | route :: _ => some (.result (routeSummary route))

/-! ## Weather adapter (`main.py`, `fetch_weather`) -/

/-- Python `str.lower()` (ASCII-idealised, via `Char.toLower`). -/
def pyLower (s : String) : String := String.mk (s.toList.map Char.toLower)

/-- Python `str.strip()`: drop leading and trailing whitespace. -/
def pyStrip (s : String) : String :=
  String.mk (((s.toList.dropWhile Char.isWhitespace).reverse.dropWhile
    Char.isWhitespace).reverse)

/-- The derived `traffic_weather_impact` of `fetch_weather`
(`main.py` lines 206-216): the condition keyword is lowercased and matched
against fixed lists before the temperature threshold is consulted. -/
def traffic_impact (weatherMain : String) (temp : ℚ) : String :=
  if pyLower weatherMain ∈ ["thunderstorm", "tornado"] then
    "SEVERE — Expect major delays and road closures"
  else if pyLower weatherMain ∈ ["rain", "drizzle", "snow"] then
    "HIGH — Wet roads, reduced visibility, slower traffic"
  else if pyLower weatherMain ∈ ["mist", "fog", "haze", "smoke"] then
    "MODERATE — Low visibility may slow down traffic"
  else if temp > 38 then
    "LOW-MODERATE — Extreme heat may affect peak hour traffic"
  else
    "LOW — Weather conditions are favorable for travel"

/-- Modelled from the claim: the fixed decision table for the impact
category, keyed on the lowercased condition keyword and the temperature
threshold. -/
def specImpactCategory (weatherMain : String) (temp : ℚ) : String :=
  if pyLower weatherMain = "thunderstorm" ∨ pyLower weatherMain = "tornado" then
    "SEVERE"
  else if pyLower weatherMain = "rain" ∨ pyLower weatherMain = "drizzle"
      ∨ pyLower weatherMain = "snow" then "HIGH"
  else if pyLower weatherMain = "mist" ∨ pyLower weatherMain = "fog"
      ∨ pyLower weatherMain = "haze" ∨ pyLower weatherMain = "smoke" then "MODERATE"
  else if 38 < temp then "LOW-MODERATE"
  else "LOW"

/-- The leading category word of an impact string (everything before the
first space). -/
def impactCategory (s : String) : String :=
  String.mk (s.toList.takeWhile (fun ch => ch ≠ ' '))

/-! ## Persisted JSON log files (`main.py` lines 383-414, `output.py`) -/

/-- State of one persisted JSON log file: missing, unparsable JSON, a JSON
array, or a single non-array JSON value (with its Python truthiness). -/
inductive FileState (α : Type) where
  | absent
  | corrupt
  | jlist (l : List α)
  | jscalar (a : α) (truthy : Bool)

/-- `load_input` of `output.py` lines 69-74: opening a missing file raises
`FileNotFoundError`, `json.load` on corrupt content raises
`JSONDecodeError` (both uncaught), `data[-1]` on an empty array raises
`IndexError`; otherwise the latest element (or the non-array value) is
returned. -/
def load_input {α : Type} : FileState α → Except String α
  | .absent => .error "FileNotFoundError"
  | .corrupt => .error "JSONDecodeError"
  | .jlist l =>
    match l.getLast? with
    | none => .error "IndexError"
    | some a => .ok a
  | .jscalar a _ => .ok a

/-- The read-for-append step shared by `main.py` lines 384-392 and
`output.py` lines 105-113: a missing file and corrupt JSON both become the
empty array, a non-array value is wrapped in a singleton when truthy. -/
def loadForAppend {α : Type} : FileState α → List α
  | .absent => []
  | .corrupt => []
  | .jlist l => l
  | .jscalar a t => if t then [a] else []

/-- `save_output` of `output.py` lines 104-118: read-modify-write append. -/
def save_output {α : Type} (f : FileState α) (a : α) : FileState α :=
  .jlist (loadForAppend f ++ [a])

/-- One sequential append to the observation log (`inputs.append(result)`
after loading the existing array, `main.py` lines 384-396). -/
def appendRecord {α : Type} (log : List α) (r : α) : List α := log ++ [r]

/-! ## Brace-scanning JSON extraction (`output.py` lines 96-102) -/

/-- Index of the first occurrence of `c`, if any. -/
def pyFindAux (c : Char) : List Char → Option ℕ
  | [] => none
  | x :: xs => if x = c then some 0 else (pyFindAux c xs).map (· + 1)

/-- Python `str.find`: first index of `c`, or `-1`. -/
def pyFind (s : List Char) (c : Char) : ℤ :=
  match pyFindAux c s with
  | none => -1
  | some i => (i : ℤ)

/-- Python `str.rfind`: last index of `c`, or `-1`. -/
def pyRFind (s : List Char) (c : Char) : ℤ :=
  match pyFindAux c s.reverse with
  | none => -1
  | some i => (s.length : ℤ) - 1 - (i : ℤ)

/-- Python slice `s[a:b]` (step 1): negative indices count from the end,
then both bounds are clamped to `[0, len]`. -/
def pySlice (s : List Char) (a b : ℤ) : List Char :=
  let n : ℤ := s.length
  let lo : ℤ := if a < 0 then max (n + a) 0 else min a n
  let hi : ℤ := if b < 0 then max (n + b) 0 else min b n
  (s.take hi.toNat).drop lo.toNat

/-- The "first `{` to last `}`" extraction of `generate_decision`
(`output.py` lines 98-100): `content[content.find(chr 123) : content.rfind(chr 125) + 1]`. -/
def braceSlice (content : String) : String :=
  String.mk (pySlice content.toList
    (pyFind content.toList (Char.ofNat 123))
    (pyRFind content.toList (Char.ofNat 125) + 1))

/-- `generate_decision` of `output.py` lines 76-102, as a function of the
oracle's reply `content` and of the JSON parser (`json.loads`, abstracted
as `parse`; `none` models a raised `JSONDecodeError`).  The reply is
stripped, the brace span extracted and parsed; a parse failure propagates
as an error. -/
def generate_decision {δ : Type} (parse : String → Option δ) (content : String) :
    Except String δ :=
  match parse (braceSlice (pyStrip content)) with
  | none => .error "JSONDecodeError"
  | some d => .ok d

/-- The `__main__` pipeline of `output.py` lines 120-131 (the decision
synthesizer): load the latest observation, generate a decision from the
oracle reply, and only on success append it to the decision log.  Returns
the outcome together with the resulting decision-log file state. -/
def runOutput {α δ : Type} (parse : String → Option δ) (obsFile : FileState α)
    (content : String) (decFile : FileState δ) :
    Except String δ × FileState δ :=
  match load_input obsFile with
  | .error e => (.error e, decFile)
  | .ok _ =>
    match generate_decision parse content with
    | .error e => (.error e, decFile)
    | .ok d => (.ok d, save_output decFile d)

/-! ## The `/analyze` endpoint (`main.py` lines 329-414) -/

/-- A single-quote character, used inside source message strings. -/
def squote : String := String.mk [Char.ofNat 39]

/-- Detail string of the 404 raised when geocoding fails. -/
def geocodeFailDetail (venue : String) : String :=
  "Could not geocode venue: " ++ squote ++ venue ++ squote ++ ". Try a more specific name."

/-- The uncaught exception raised at `main.py` line 373 when
`fetch_mappls_traffic` returned `None`. -/
def attrErrorMsg : String :=
  "AttributeError: " ++ squote ++ "NoneType" ++ squote ++ " object has no attribute "
    ++ squote ++ "get" ++ squote

/-- The `mappls_live_traffic` sub-dictionary built by `analyze`
(`main.py` lines 372-378) via `.get` on the adapter's dictionary: every
key is absent on the error dictionary except `congestion_level`, which is
`"UNKNOWN"` there. -/
structure MapplsSection where
  distance_km : Option ℚ
  travel_time_min : Option ℚ
  traffic_delay_min : Option ℚ
  average_speed_kmh : Option ℚ
  congestion_level : Option String

/-- Evaluate the five `.get` calls of `main.py` lines 373-377. -/
def mapplsSection : MapplsValue → MapplsSection
  | .errorDict _ => ⟨none, none, none, none, some "UNKNOWN"⟩
  | .result r => ⟨some r.distance_km, some r.travel_time_min,
      some r.traffic_delay_min, some r.average_speed_kmh, some r.congestion_level⟩

/-- The `location` sub-object of the merged record. -/
structure Location where
  latitude : ℚ
  longitude : ℚ

/-- The merged Observation Record built at `main.py` lines 363-379:
the synthesizer's forecast (of type `α`), the location, the nearest-metro
and weather adapter outputs merged verbatim (types `μ`, `ω`), and the
`mappls_live_traffic` section. -/
structure ObservationRecord (α ω μ : Type) where
  forecast : α
  location : Location
  nearest_metro_station : μ
  weather : ω
  mappls_live_traffic : MapplsSection

/-- Build the merged record from the five data sources. -/
def mkRecord {α ω μ : Type} (forecast : α) (lat lon : ℚ) (metro : μ)
    (weather : ω) (mv : MapplsValue) : ObservationRecord α ω μ :=
  ⟨forecast, ⟨lat, lon⟩, metro, weather, mapplsSection mv⟩

/-- Result of one `POST /analyze` request: the merged record, a raised
`HTTPException` with its status code and detail, or an uncaught Python
exception (which the framework surfaces as a generic 500). -/
inductive AnalyzeOutcome (α ω μ : Type) where
  | ok (record : ObservationRecord α ω μ)
  | httpError (status : ℕ) (detail : String)
  | pythonError (message : String)

/-- The `analyze` endpoint (`main.py` lines 329-379) as a function of the
request body and of the external-call outcomes: the geocoder result
(`None` on failure, per `geocode_venue`), the forecast-synthesizer outcome
(`analyze_venue` raises HTTPException 500 with the exception text on any
failure), the nearest-metro and weather adapter outputs, and the
routing-adapter output.  A `none` routing output makes the record
construction call `.get` on `None`, an uncaught `AttributeError`. -/
def analyze {α ω μ : Type} (venue : String) (geo : Option (ℚ × ℚ))
    (synth : Except String α) (metro : μ) (weather : ω)
    (mappls : Option MapplsValue) : AnalyzeOutcome α ω μ :=
  if pyStrip venue = "" then .httpError 400 "Venue name is required"
  else
    match geo with
    | none => .httpError 404 (geocodeFailDetail (pyStrip venue))
    | some (lat, lon) =>
      match synth with
      | .error e => .httpError 500 e
      | .ok forecast =>
        match mappls with
        | none => .pythonError attrErrorMsg
        | some mv => .ok (mkRecord forecast lat lon metro weather mv)

/-- `analyze` together with its persistence step (`main.py` lines
383-414): on success the record is appended to the observation log by
read-modify-write; `writeOk = false` models a failing write, whose
exception is caught and swallowed by the surrounding `try`, leaving the
outcome unchanged. -/
def analyzeFull {α ω μ : Type} (venue : String) (geo : Option (ℚ × ℚ))
    (synth : Except String α) (metro : μ) (weather : ω)
    (mappls : Option MapplsValue)
    (file : FileState (ObservationRecord α ω μ)) (writeOk : Bool) :
    AnalyzeOutcome α ω μ × FileState (ObservationRecord α ω μ) :=
  match analyze venue geo synth metro weather mappls with
  | .ok r => (.ok r, if writeOk then .jlist (loadForAppend file ++ [r]) else file)
  | out => (out, file)

/-! ## Nearest-metro adapter (`main.py`, `fetch_nearest_metro`) -/

/-- Python `math.radians`. -/
noncomputable def radians (x : ℝ) : ℝ := x * Real.pi / 180

/-- Python `math.atan2 y x`: the argument of the point `(x, y)`. -/
noncomputable def atan2 (y x : ℝ) : ℝ := Complex.arg ⟨x, y⟩

/-- The haversine great-circle distance of `main.py` lines 137-143
(Earth radius 6371 km). -/
noncomputable def haversine (lat1 lon1 lat2 lon2 : ℝ) : ℝ :=
  let dlat := radians (lat2 - lat1)
  let dlon := radians (lon2 - lon1)
  let a := Real.sin (dlat/2) ^ 2
    + Real.cos (radians lat1) * Real.cos (radians lat2) * Real.sin (dlon/2) ^ 2
  6371 * 2 * atan2 (Real.sqrt a) (Real.sqrt (1 - a))

/-- One node returned by the Overpass geospatial query. -/
structure OsmElement where
  lat : ℝ
  lon : ℝ
  name : Option String
  osm_id : Option ℕ

/-- Python `min(iterable, key=...)` over a non-empty list `e :: rest`:
scan keeping the current best, replacing it only on a strictly smaller
key, so the first minimiser wins ties. -/
noncomputable def minByKey (key : OsmElement → ℝ) (e : OsmElement)
    (rest : List OsmElement) : OsmElement :=
  rest.foldl (fun best x => if key x < key best then x else best) e

/-- Python `round` to an integer over `ℝ` (round half to even). -/
noncomputable def roundHalfEvenR (x : ℝ) : ℤ :=
  if x - ⌊x⌋ < 1/2 then ⌊x⌋
  else if 1/2 < x - ⌊x⌋ then ⌊x⌋ + 1
  else if ⌊x⌋ % 2 = 0 then ⌊x⌋ else ⌊x⌋ + 1

/-- Python `round(x, d)` over `ℝ`. -/
noncomputable def rroundTo (d : ℕ) (x : ℝ) : ℝ :=
  ((roundHalfEvenR (x * 10 ^ d) : ℤ) : ℝ) / 10 ^ d

/-- The dictionary returned by `fetch_nearest_metro`; absent keys are
`none`.  The `google_maps_link` URL (string formatting of floats) is not
modelled. -/
structure MetroResult where
  station_name : String
  distance_km : Option ℝ
  walking_time_mins : Option ℤ
  auto_time_mins : Option ℤ
  lat : Option ℝ
  lon : Option ℝ
  osm_id : Option ℕ
  note : Option String
  error : Option String

/-- The fixed sentinel returned when no elements are found
(`main.py` lines 126-135). -/
def noMetroFound : MetroResult :=
  { station_name := "No metro station found within 5km"
    distance_km := none
    walking_time_mins := none
    auto_time_mins := none
    lat := none
    lon := none
    osm_id := none
    note := some "Pune Metro network may be expanding — check pmrda.gov.in"
    error := none }

/-- `fetch_nearest_metro` (`main.py` lines 105-165) as a function of the
parsed `elements` array of the Overpass response: the sentinel on an empty
array, otherwise the minimum-haversine-distance candidate with the rounded
distance and derived walking (distance / 0.08) and auto (distance / 0.5)
times. -/
noncomputable def fetch_nearest_metro (lat lon : ℝ) (elements : List OsmElement) :
    MetroResult :=
  match elements with
  | [] => noMetroFound
  | e :: rest =>
    let nearest := minByKey (fun el => haversine lat lon el.lat el.lon) e rest
    let distance := haversine lat lon nearest.lat nearest.lon
    { station_name := nearest.name.getD "Unknown Station"
      distance_km := some (rroundTo 2 distance)
      walking_time_mins := some (roundHalfEvenR (distance / (8/100)))
      auto_time_mins := some (roundHalfEvenR (distance / (5/10)))
      lat := some nearest.lat
      lon := some nearest.lon
      osm_id := nearest.osm_id
      note := none
      error := none }

/-! # Theorems -/

theorem roundHalfEvenQ_nonneg {q : ℚ} (h : 0 ≤ q) : 0 ≤ roundHalfEvenQ q := by
  unfold roundHalfEvenQ
  have hf : (0 : ℤ) ≤ ⌊q⌋ := Int.le_floor.mpr (by exact_mod_cast h)
  split_ifs <;> omega

theorem qroundTo_nonneg {d : ℕ} {q : ℚ} (h : 0 ≤ q) : 0 ≤ qroundTo d q := by
  unfold qroundTo
  apply div_nonneg
  · exact_mod_cast roundHalfEvenQ_nonneg (by positivity)
  · positivity

theorem congestionLevel_eq_critical (d : ℚ) :
    congestionLevel d = "CRITICAL" ↔ 10 < d := by
  unfold congestionLevel
  split_ifs with h1 h2 h3
  · exact iff_of_true rfl h1
  · exact iff_of_false (by decide) h1
  · exact iff_of_false (by decide) h1
  · exact iff_of_false (by decide) h1

theorem congestionLevel_eq_high (d : ℚ) :
    congestionLevel d = "HIGH" ↔ 5 < d ∧ d ≤ 10 := by
  unfold congestionLevel
  split_ifs with h1 h2 h3
  · exact iff_of_false (by decide) (fun hc => absurd h1 (not_lt.mpr hc.2))
  · exact iff_of_true rfl ⟨h2, not_lt.mp h1⟩
  · exact iff_of_false (by decide) (fun hc => h2 hc.1)
  · exact iff_of_false (by decide) (fun hc => h2 hc.1)

theorem congestionLevel_eq_moderate (d : ℚ) :
    congestionLevel d = "MODERATE" ↔ 2 < d ∧ d ≤ 5 := by
  unfold congestionLevel
  split_ifs with h1 h2 h3
  · exact iff_of_false (by decide)
      (fun hc => absurd (lt_of_lt_of_le h1 hc.2) (by norm_num))
  · exact iff_of_false (by decide)
      (fun hc => absurd (lt_of_lt_of_le h2 hc.2) (lt_irrefl _))
  · exact iff_of_true rfl ⟨h3, not_lt.mp h2⟩
  · exact iff_of_false (by decide) (fun hc => h3 hc.1)

theorem congestionLevel_eq_low (d : ℚ) :
    congestionLevel d = "LOW" ↔ d ≤ 2 := by
  unfold congestionLevel
  split_ifs with h1 h2 h3
  · exact iff_of_false (by decide)
      (fun hc => absurd (lt_of_lt_of_le h1 hc) (by norm_num))
  · exact iff_of_false (by decide)
      (fun hc => absurd (lt_of_lt_of_le h2 hc) (by norm_num))
  · exact iff_of_false (by decide)
      (fun hc => absurd (lt_of_lt_of_le h3 hc) (lt_irrefl _))
  · exact iff_of_true rfl (not_lt.mp h3)

/-- C3 — counterexample.  The claim states that `traffic_delay_min` equals
the difference between the traffic-aware duration and the duration without
traffic in minutes (floored at 0).  On the route with `duration = 430 s`
and `duration_without_traffic = 360 s` the exact difference is `7/6` min,
but the source rounds the reported field to one decimal (`round(delay_min, 1)`,
`generate_token.py` line 131), yielding `1.2`. -/
theorem traffic_delay_exact_difference_counterexample :
    (routeSummary ⟨some 1000, some 430, some 360⟩).traffic_delay_min
      ≠ max 0 ((430 : ℚ)/60 - (360 : ℚ)/60) := by
  have h : (routeSummary ⟨some 1000, some 430, some 360⟩).traffic_delay_min = 6/5 := by
    show qroundTo 1 (max 0 ((430 : ℚ)/60 - 360/60)) = 6/5
    rw [show max (0:ℚ) ((430 : ℚ)/60 - 360/60) = 7/6 by
      rw [max_eq_right (by norm_num)]; norm_num]
    norm_num [qroundTo, roundHalfEvenQ]
  rw [h, max_eq_right (by norm_num)]
  norm_num

/-- C3 — amended claim.  For every routing response, `traffic_delay_min` is
the difference between the traffic-aware duration and the duration without
traffic in minutes, floored at 0 and rounded to one decimal (and 0 when
`duration_without_traffic` is absent), and `congestion_level` is classified
from the unrounded delay: CRITICAL iff delay > 10, HIGH iff 5 < delay ≤ 10,
MODERATE iff 2 < delay ≤ 5, LOW iff delay ≤ 2; a duration of 42 min
(2520 s) versus 30 min (1800 s) without traffic yields
`traffic_delay_min = 12.0` and `congestion_level = "CRITICAL"`. -/
theorem route_delay_and_congestion (route : Route) :
    (routeSummary route).traffic_delay_min = qroundTo 1 (pyDelay route)
  ∧ ((routeSummary route).congestion_level = "CRITICAL" ↔ 10 < pyDelay route)
  ∧ ((routeSummary route).congestion_level = "HIGH" ↔ 5 < pyDelay route ∧ pyDelay route ≤ 10)
  ∧ ((routeSummary route).congestion_level = "MODERATE" ↔ 2 < pyDelay route ∧ pyDelay route ≤ 5)
  ∧ ((routeSummary route).congestion_level = "LOW" ↔ pyDelay route ≤ 2)
  ∧ (route.duration_without_traffic = none → (routeSummary route).traffic_delay_min = 0)
  ∧ (routeSummary ⟨route.distance, some 2520, some 1800⟩).traffic_delay_min = 12
  ∧ (routeSummary ⟨route.distance, some 2520, some 1800⟩).congestion_level = "CRITICAL" := by
  refine ⟨rfl, congestionLevel_eq_critical _, congestionLevel_eq_high _,
    congestionLevel_eq_moderate _, congestionLevel_eq_low _, ?_, ?_, ?_⟩
  · intro h
    have hd : pyDelay route = 0 := by simp [pyDelay, h]
    show qroundTo 1 (pyDelay route) = 0
    rw [hd]; norm_num [qroundTo, roundHalfEvenQ]
  · show qroundTo 1 (max 0 ((2520 : ℚ)/60 - 1800/60)) = 12
    rw [show max (0:ℚ) ((2520 : ℚ)/60 - 1800/60) = 12 by
      rw [max_eq_right (by norm_num)]; norm_num]
    norm_num [qroundTo, roundHalfEvenQ]
  · show congestionLevel (max 0 ((2520 : ℚ)/60 - 1800/60)) = "CRITICAL"
    rw [show max (0:ℚ) ((2520 : ℚ)/60 - 1800/60) = 12 by
      rw [max_eq_right (by norm_num)]; norm_num]
    unfold congestionLevel
    rw [if_pos (by norm_num)]

/-- C3 — witness for the amended claim at a concrete route. -/
theorem route_delay_and_congestion_witness :
    (routeSummary ⟨some 1000, none, none⟩).traffic_delay_min = 0 :=
  (route_delay_and_congestion ⟨some 1000, none, none⟩).2.2.2.2.2.1 rfl

/-- C10 — for every processed routing response the reported delay is
non-negative (clamped at zero), and a reported duration of 0 makes the
guarded division yield `average_speed_kmh = 0` instead of an error. -/
theorem delay_nonneg_and_speed_guard (route : Route) :
    0 ≤ (routeSummary route).traffic_delay_min
  ∧ (route.duration.getD 0 = 0 → (routeSummary route).average_speed_kmh = 0) := by
  constructor
  · exact qroundTo_nonneg (le_max_left _ _)
  · intro h
    show qroundTo 1 (if route.duration.getD 0 / 60 = 0 then 0
      else route.distance.getD 0 / 1000 / (route.duration.getD 0 / 60 / 60)) = 0
    rw [h]
    norm_num [qroundTo, roundHalfEvenQ]

/-- C10 — witness: a route whose duration key is absent (defaults to 0). -/
theorem delay_nonneg_and_speed_guard_witness :
    0 ≤ (routeSummary ⟨some 1000, none, some 60⟩).traffic_delay_min
  ∧ (routeSummary ⟨some 1000, none, some 60⟩).average_speed_kmh = 0 :=
  ⟨(delay_nonneg_and_speed_guard ⟨some 1000, none, some 60⟩).1,
   (delay_nonneg_and_speed_guard ⟨some 1000, none, some 60⟩).2 rfl⟩

/-- C4 — for every condition keyword and temperature, the derived
`traffic_weather_impact` follows the claimed decision table
(thunderstorm/tornado → SEVERE; rain/drizzle/snow → HIGH regardless of
temperature; mist/fog/haze/smoke → MODERATE; otherwise temp > 38 →
LOW-MODERATE; otherwise LOW), and a rain condition always yields an impact
string starting with "HIGH —" (its first six characters). -/
theorem weather_impact_table (weatherMain : String) (temp : ℚ) :
    impactCategory (traffic_impact weatherMain temp)
      = specImpactCategory weatherMain temp
  ∧ (traffic_impact "Rain" temp).toList.take 6 = "HIGH —".toList := by
  have ht : pyLower "Rain" = "rain" := by decide
  constructor
  · unfold traffic_impact specImpactCategory
    simp only [List.mem_cons, List.mem_singleton, List.not_mem_nil, or_false]
    split_ifs <;> decide
  · unfold traffic_impact
    rw [ht, if_neg (by decide), if_pos (by decide)]
    decide

theorem foldl_appendRecord {α : Type} (rs : List α) :
    ∀ init : List α, rs.foldl appendRecord init = init ++ rs := by
  induction rs with
  | nil => intro init; simp
  | cons x t ih =>
    intro init
    show t.foldl appendRecord (appendRecord init x) = init ++ x :: t
    rw [ih (appendRecord init x)]
    simp [appendRecord]

/-- C7 — appending N observation records sequentially to a well-formed
(array-shaped) log yields the log extended by exactly those N records in
append order, and reading the latest observation the way the decision
synthesizer does (`load_input`, `data[-1]`) returns the N-th appended
record. -/
theorem sequential_appends {α : Type} (init rs : List α) (h : rs ≠ []) :
    rs.foldl appendRecord init = init ++ rs
  ∧ (rs.foldl appendRecord init).length = init.length + rs.length
  ∧ load_input (FileState.jlist (rs.foldl appendRecord init))
      = Except.ok (rs.getLast h) := by
  refine ⟨foldl_appendRecord rs init, ?_, ?_⟩
  · rw [foldl_appendRecord rs init]; simp
  · rw [foldl_appendRecord rs init]
    show (match (init ++ rs).getLast? with
      | none => Except.error "IndexError"
      | some a => Except.ok a) = Except.ok (rs.getLast h)
    rw [List.getLast?_append_of_ne_nil init h, List.getLast?_eq_getLast rs h]

/-- C7 — witness at a concrete log and batch of appends. -/
theorem sequential_appends_witness :
    ([3, 4, 5].foldl appendRecord [1, 2] : List ℕ) = [1, 2] ++ [3, 4, 5]
  ∧ ([3, 4, 5].foldl appendRecord [1, 2] : List ℕ).length = 2 + 3
  ∧ load_input (FileState.jlist ([3, 4, 5].foldl appendRecord [1, 2] : List ℕ))
      = Except.ok 5 :=
  sequential_appends [1, 2] [3, 4, 5] (by decide)

/-- C8 — when the observation log is empty or its file is absent, or the
model output contains no parseable JSON, the decision synthesizer fails
with an error propagated to the caller and the decision log file is left
unchanged. -/
theorem decision_failure_writes_nothing {α δ : Type} (parse : String → Option δ)
    (obsFile : FileState α) (content : String) (decFile : FileState δ)
    (h : obsFile = FileState.jlist [] ∨ obsFile = FileState.absent
      ∨ parse (braceSlice (pyStrip content)) = none) :
    (∃ e, (runOutput parse obsFile content decFile).1 = Except.error e)
  ∧ (runOutput parse obsFile content decFile).2 = decFile := by
  rcases h with h | h | h
  · subst h
    exact ⟨⟨"IndexError", rfl⟩, rfl⟩
  · subst h
    exact ⟨⟨"FileNotFoundError", rfl⟩, rfl⟩
  · unfold runOutput
    match hl : load_input obsFile with
    | .error e => exact ⟨⟨e, rfl⟩, rfl⟩
    | .ok a =>
      unfold generate_decision
      rw [h]
      exact ⟨⟨"JSONDecodeError", rfl⟩, rfl⟩

/-- C8 — witness: an empty observation log with a parser that always
fails. -/
theorem decision_failure_writes_nothing_witness :
    (∃ e, (runOutput (fun _ => (none : Option ℕ)) (FileState.jlist ([] : List ℕ))
      "no json here" FileState.absent).1 = Except.error e)
  ∧ (runOutput (fun _ => (none : Option ℕ)) (FileState.jlist ([] : List ℕ))
      "no json here" FileState.absent).2 = FileState.absent :=
  decision_failure_writes_nothing (fun _ => none) (FileState.jlist [])
    "no json here" FileState.absent (Or.inl rfl)

/-- C9 — corrupt persisted log content is treated as an empty log (the new
record is appended to an empty array), and a failing persistence write is
swallowed: `POST /analyze` still returns the complete merged record and
the file is left as it was. -/
theorem corrupt_log_and_swallowed_write {α ω μ : Type} (venue : String)
    (lat lon : ℚ) (forecast : α) (metro : μ) (weather : ω) (mv : MapplsValue)
    (file : FileState (ObservationRecord α ω μ))
    (hv : pyStrip venue ≠ "") :
    loadForAppend (FileState.corrupt : FileState (ObservationRecord α ω μ)) = []
  ∧ analyzeFull venue (some (lat, lon)) (Except.ok forecast) metro weather
      (some mv) FileState.corrupt true
      = (AnalyzeOutcome.ok (mkRecord forecast lat lon metro weather mv),
         FileState.jlist [mkRecord forecast lat lon metro weather mv])
  ∧ analyzeFull venue (some (lat, lon)) (Except.ok forecast) metro weather
      (some mv) file false
      = (AnalyzeOutcome.ok (mkRecord forecast lat lon metro weather mv), file) := by
  have ha : analyze venue (some (lat, lon)) (Except.ok forecast) metro weather
      (some mv) = AnalyzeOutcome.ok (mkRecord forecast lat lon metro weather mv) := by
    unfold analyze
    rw [if_neg hv]
  refine ⟨rfl, ?_, ?_⟩
  · unfold analyzeFull
    rw [ha]
    rfl
  · unfold analyzeFull
    rw [ha]
    rfl


/-- C9 — witness at a concrete request. -/
theorem corrupt_log_and_swallowed_write_witness :
    loadForAppend (FileState.corrupt : FileState (ObservationRecord ℕ ℕ ℕ)) = []
  ∧ analyzeFull "Shivajinagar Stadium" (some (185/10, 738/10)) (Except.ok 7)
      (0 : ℕ) (0 : ℕ) (some (MapplsValue.errorDict "timeout")) FileState.corrupt true
      = (AnalyzeOutcome.ok (mkRecord 7 (185/10) (738/10) 0 0
          (MapplsValue.errorDict "timeout")),
         FileState.jlist [mkRecord 7 (185/10) (738/10) 0 0
          (MapplsValue.errorDict "timeout")])
  ∧ analyzeFull "Shivajinagar Stadium" (some (185/10, 738/10)) (Except.ok 7)
      (0 : ℕ) (0 : ℕ) (some (MapplsValue.errorDict "timeout")) FileState.absent false
      = (AnalyzeOutcome.ok (mkRecord 7 (185/10) (738/10) 0 0
          (MapplsValue.errorDict "timeout")), FileState.absent) :=
  corrupt_log_and_swallowed_write "Shivajinagar Stadium" (185/10) (738/10) 7 0 0
    (MapplsValue.errorDict "timeout") FileState.absent (by decide)

/-- C1 — the code violates the partial-success claim: when the routing
adapter's token acquisition fails (e.g. missing MAPPLS credentials),
`fetch_mappls_traffic` hits a bare `return` and yields `None` instead of
an in-band error object, and `analyze` then crashes with an uncaught
`AttributeError` at the `.get` calls of `main.py` line 373, so the merged
Observation Record is neither produced nor persisted. -/
theorem mappls_token_failure_crashes_analyze :
    fetch_mappls_traffic none
      (MapplsFetch.resp 200 [⟨some 1000, some 600, some 300⟩]) = none
  ∧ analyze "AISSMS College of Engineering" (some (185/10, 738/10))
      (Except.ok "forecast") "metro adapter output" "weather adapter output"
      (fetch_mappls_traffic none
        (MapplsFetch.resp 200 [⟨some 1000, some 600, some 300⟩]))
      = AnalyzeOutcome.pythonError attrErrorMsg := by
  constructor
  · rfl
  · unfold analyze
    rw [if_neg (by decide)]
    rfl

/-- C2 — counterexample.  A request with a non-empty venue, a successful
geocoder and a successful forecast synthesizer does not return the merged
Observation Record when the routing adapter returned `None`: the handler
dies with an uncaught `AttributeError` (`AnalyzeOutcome.pythonError`,
surfaced by the framework as a generic 500), contradicting the claim's
"otherwise it returns the merged Observation Record". -/
theorem analyze_otherwise_record_counterexample :
    pyStrip "Balewadi Stadium" ≠ ""
  ∧ analyze "Balewadi Stadium" (some (181/10, 736/10)) (Except.ok "forecast")
      "metro adapter output" "weather adapter output" (none : Option MapplsValue)
      = AnalyzeOutcome.pythonError attrErrorMsg := by
  constructor
  · decide
  · unfold analyze
    rw [if_neg (by decide)]

/-- C2 — amended claim.  `POST /analyze` fails with 400 when the venue is
empty after stripping, with 404 when the geocoder cannot resolve it, and
with 500 when the forecast synthesizer fails; otherwise, **provided the
routing adapter returned a value**, it returns the merged Observation
Record — when the routing adapter returned `None` (token failure, non-200
status, or empty routes) the handler instead raises an uncaught
`AttributeError`. -/
theorem analyze_status_codes {α ω μ : Type} (venue : String)
    (geo : Option (ℚ × ℚ)) (synth : Except String α) (metro : μ) (weather : ω)
    (mappls : Option MapplsValue) :
    (pyStrip venue = "" → analyze venue geo synth metro weather mappls
        = AnalyzeOutcome.httpError 400 "Venue name is required")
  ∧ (pyStrip venue ≠ "" → geo = none → analyze venue geo synth metro weather mappls
        = AnalyzeOutcome.httpError 404 (geocodeFailDetail (pyStrip venue)))
  ∧ (∀ lat lon e, pyStrip venue ≠ "" → geo = some (lat, lon) →
        synth = Except.error e →
        analyze venue geo synth metro weather mappls
          = AnalyzeOutcome.httpError 500 e)
  ∧ (∀ lat lon f, pyStrip venue ≠ "" → geo = some (lat, lon) →
        synth = Except.ok f → mappls = none →
        analyze venue geo synth metro weather mappls
          = AnalyzeOutcome.pythonError attrErrorMsg)
  ∧ (∀ lat lon f mv, pyStrip venue ≠ "" → geo = some (lat, lon) →
        synth = Except.ok f → mappls = some mv →
        analyze venue geo synth metro weather mappls
          = AnalyzeOutcome.ok (mkRecord f lat lon metro weather mv)) := by
  refine ⟨?_, ?_, ?_, ?_, ?_⟩
  · intro h
    unfold analyze
    rw [if_pos h]
  · intro h hg
    subst hg
    unfold analyze
    rw [if_neg h]
  · intro lat lon e h hg hs
    subst hg; subst hs
    unfold analyze
    rw [if_neg h]
  · intro lat lon f h hg hs hm
    subst hg; subst hs; subst hm
    unfold analyze
    rw [if_neg h]
  · intro lat lon f mv h hg hs hm
    subst hg; subst hs; subst hm
    unfold analyze
    rw [if_neg h]

/-- C2 — witness for the amended claim at a concrete successful request. -/
theorem analyze_status_codes_witness :
    analyze "Shaniwar Wada" (some (185/10, 738/10)) (Except.ok 3) (1 : ℕ) (2 : ℕ)
      (some (MapplsValue.errorDict "connection reset"))
      = AnalyzeOutcome.ok
          (mkRecord 3 (185/10) (738/10) 1 2 (MapplsValue.errorDict "connection reset")) :=
  (analyze_status_codes "Shaniwar Wada" (some (185/10, 738/10)) (Except.ok 3) 1 2
      (some (MapplsValue.errorDict "connection reset"))).2.2.2.2
    (185/10) (738/10) 3 (MapplsValue.errorDict "connection reset")
    (by decide) rfl rfl rfl

theorem minByKey_mem (key : OsmElement → ℝ) :
    ∀ (rest : List OsmElement) (e : OsmElement), minByKey key e rest ∈ e :: rest := by
  intro rest
  induction rest with
  | nil =>
    intro e
    simp [minByKey]
  | cons y t ih =>
    intro e
    show minByKey key (if key y < key e then y else e) t ∈ e :: y :: t
    by_cases hc : key y < key e
    · rw [if_pos hc]
      exact List.mem_cons_of_mem e (ih y)
    · rw [if_neg hc]
      rcases List.mem_cons.mp (ih e) with h1 | h1
      · rw [h1]
        exact List.mem_cons_self _ _
      · exact List.mem_cons_of_mem _ (List.mem_cons_of_mem _ h1)

theorem minByKey_le (key : OsmElement → ℝ) :
    ∀ (rest : List OsmElement) (e x : OsmElement), x ∈ e :: rest →
      key (minByKey key e rest) ≤ key x := by
  intro rest
  induction rest with
  | nil =>
    intro e x hx
    rcases List.mem_cons.mp hx with h | h
    · subst h
      exact le_refl _
    · exact absurd h (List.not_mem_nil x)
  | cons y t ih =>
    intro e x hx
    show key (minByKey key (if key y < key e then y else e) t) ≤ key x
    have hstep_e : key (if key y < key e then y else e) ≤ key e := by
      by_cases hc : key y < key e
      · rw [if_pos hc]
        exact le_of_lt hc
      · rw [if_neg hc]
    have hstep_y : key (if key y < key e then y else e) ≤ key y := by
      by_cases hc : key y < key e
      · rw [if_pos hc]
      · rw [if_neg hc]
        exact not_lt.mp hc
    have hmin : key (minByKey key (if key y < key e then y else e) t)
        ≤ key (if key y < key e then y else e) :=
      ih _ _ (List.mem_cons_self _ _)
    rcases List.mem_cons.mp hx with h | h
    · subst h
      exact hmin.trans hstep_e
    · rcases List.mem_cons.mp h with h2 | h2
      · subst h2
        exact hmin.trans hstep_y
      · exact ih _ _ (List.mem_cons_of_mem _ h2)

/-- C5 — for every non-empty candidate list returned by the geospatial
query, the nearest-metro adapter selects a candidate whose haversine
distance (Earth radius 6371 km) from the venue is minimal among all
returned candidates, and reports that minimal distance rounded to two
decimals as `distance_km`. -/
theorem nearest_metro_minimal (lat lon : ℝ) (elements : List OsmElement)
    (h : elements ≠ []) :
    ∃ nearest, nearest ∈ elements
      ∧ (∀ x ∈ elements,
          haversine lat lon nearest.lat nearest.lon ≤ haversine lat lon x.lat x.lon)
      ∧ (fetch_nearest_metro lat lon elements).distance_km
          = some (rroundTo 2 (haversine lat lon nearest.lat nearest.lon)) := by
  match elements, h with
  | e :: rest, _ =>
    refine ⟨minByKey (fun el => haversine lat lon el.lat el.lon) e rest,
      minByKey_mem _ rest e, ?_, rfl⟩
    intro x hx
    exact minByKey_le (fun el => haversine lat lon el.lat el.lon) rest e x hx

/-- C5 — witness at a concrete one-element candidate list. -/
theorem nearest_metro_minimal_witness :
    ∃ nearest, nearest ∈ [(⟨0, 0, none, none⟩ : OsmElement)]
      ∧ (∀ x ∈ [(⟨0, 0, none, none⟩ : OsmElement)],
          haversine 0 0 nearest.lat nearest.lon ≤ haversine 0 0 x.lat x.lon)
      ∧ (fetch_nearest_metro 0 0 [⟨0, 0, none, none⟩]).distance_km
          = some (rroundTo 2 (haversine 0 0 nearest.lat nearest.lon)) :=
  nearest_metro_minimal 0 0 [⟨0, 0, none, none⟩] (List.cons_ne_nil _ _)

/-- C6 — when the geospatial query returns zero elements, the
nearest-metro adapter returns the fixed "No metro station found within
5km" sentinel with `distance_km` absent, and this outcome does not make
`POST /analyze` fail: the merged record is still produced with the
sentinel embedded. -/
theorem no_metro_sentinel_and_analyze_ok {α ω : Type} (lat lon : ℝ)
    (venue : String) (la lo : ℚ) (forecast : α) (weather : ω) (mv : MapplsValue)
    (hv : pyStrip venue ≠ "") :
    (fetch_nearest_metro lat lon []).station_name = "No metro station found within 5km"
  ∧ (fetch_nearest_metro lat lon []).distance_km = none
  ∧ analyze venue (some (la, lo)) (Except.ok forecast)
      (fetch_nearest_metro lat lon []) weather (some mv)
      = AnalyzeOutcome.ok
          (mkRecord forecast la lo (fetch_nearest_metro lat lon []) weather mv) := by
  refine ⟨rfl, rfl, ?_⟩
  unfold analyze
  rw [if_neg hv]

/-- C6 — witness at a concrete request with an empty Overpass result. -/
theorem no_metro_sentinel_and_analyze_ok_witness :
    (fetch_nearest_metro 0 0 []).station_name = "No metro station found within 5km"
  ∧ (fetch_nearest_metro 0 0 []).distance_km = none
  ∧ analyze "Deccan Gymkhana" (some (185/10, 738/10)) (Except.ok 1)
      (fetch_nearest_metro 0 0 []) (2 : ℕ) (some (MapplsValue.errorDict "timeout"))
      = AnalyzeOutcome.ok (mkRecord 1 (185/10) (738/10) (fetch_nearest_metro 0 0 [])
          2 (MapplsValue.errorDict "timeout")) :=
  no_metro_sentinel_and_analyze_ok 0 0 "Deccan Gymkhana" (185/10) (738/10) 1 2
    (MapplsValue.errorDict "timeout") (by decide)
